import Mathlib

/-!
Verification of the `ouiteo/shopify-client` GraphQL client core: the request
classification and retry pipeline (`ShopifyClient.graphql`), the pagination
walker (`graphql_call_with_pagination`), the bulk-operation orchestration
(`is_bulk_job_running`, `poll_until_complete`, `run_bulk_operation_query`,
`run_bulk_operation_mutation`), and the error-code extraction helper
(`get_error_codes`).

The Python source is embedded shallowly: JSON values become the inductive
`Json`; Python dictionary/iteration/truthiness semantics become explicit
helper functions returning `Option` where the Python code can raise a
dynamic error (`KeyError`, `AttributeError`, `TypeError`); the HTTP
transport becomes an explicit environment (a list of responses consumed in
order); `async` sleeps and downloads become counters and oracles.
-/

/-- JSON values as produced by `response.json()` in the Python client.
Numbers are restricted to integers (the values relevant to the client's
control flow are booleans, strings, nulls, objects and arrays). -/
inductive Json where
  | null : Json
  | bool (b : Bool) : Json
  | num (n : Int) : Json
  | str (s : String) : Json
  | arr (xs : List Json) : Json
  | obj (kvs : List (String × Json)) : Json
deriving Repr

mutual

/-- Python `==` on JSON values (structural equality). -/
def Json.beq : Json → Json → Bool
  | .null, .null => true
  | .bool a, .bool b => a == b
  | .num a, .num b => a == b
  | .str a, .str b => a == b
  | .arr xs, .arr ys => Json.beqList xs ys
  | .obj xs, .obj ys => Json.beqKVs xs ys
  | _, _ => false

/-- Elementwise Python `==` on lists of JSON values. -/
def Json.beqList : List Json → List Json → Bool
  | [], [] => true
  | x :: xs, y :: ys => Json.beq x y && Json.beqList xs ys
  | _, _ => false

/-- Elementwise Python `==` on dict entry lists. -/
def Json.beqKVs : List (String × Json) → List (String × Json) → Bool
  | [], [] => true
  | (k1, v1) :: xs, (k2, v2) :: ys => k1 == k2 && Json.beq v1 v2 && Json.beqKVs xs ys
  | _, _ => false

end

/-- Python truthiness of a JSON value (`bool(x)`): `None`, `False`, `0`,
`""`, `[]` and `{}` are falsy, everything else truthy. -/
def Json.truthy : Json → Bool
  | .null => false
  | .bool b => b
  | .num n => n != 0
  | .str s => !s.isEmpty
  | .arr xs => !xs.isEmpty
  | .obj kvs => !kvs.isEmpty

/-- Python `d.get(k, default)`. Returns `none` when `d` is not a dict
(`AttributeError` in Python). -/
def pyGet (j : Json) (k : String) (dflt : Json) : Option Json :=
  match j with
  | .obj kvs => some (((kvs.find? (fun kv => kv.1 == k)).map Prod.snd).getD dflt)
  | _ => none

/-- Python `d.get(k)`, i.e. `d.get(k, None)`. -/
def pyGet1 (j : Json) (k : String) : Option Json :=
  pyGet j k .null

/-- Python `d[k]` subscript access for a string key. Returns `none` when `d`
is not a dict or the key is missing (`TypeError` / `KeyError`). -/
def pyIndex (j : Json) (k : String) : Option Json :=
  match j with
  | .obj kvs => (kvs.find? (fun kv => kv.1 == k)).map Prod.snd
  | _ => none

/-- Python iteration `for x in v`: a list yields its elements, a string its
characters (as 1-character strings), a dict its keys; other values raise
`TypeError` (`none`). -/
def pyIter : Json → Option (List Json)
  | .arr xs => some xs
  | .str s => some (s.data.map (fun c => .str (String.mk [c])))
  | .obj kvs => some (kvs.map (fun kv => .str kv.1))
  | _ => none

/-- Python `k in v` for a string `k`: key membership for a dict, substring
test for a string, element membership for a list; other values raise
`TypeError` (`none`). -/
def pyContains (v : Json) (k : String) : Option Bool :=
  match v with
  | .obj kvs => some (kvs.any (fun kv => kv.1 == k))
  | .str s => some (decide (k.data <:+: s.data))
  | .arr xs => some (xs.any (fun x => Json.beq x (Json.str k)))
  | _ => none

/-- `utils.get_error_codes(data)`: walks `data.get("errors", [])` collecting
`error.get("extensions", {}).get("code")` for each entry, and adds the code
of `data.get("error")` when that value is truthy. The result is a Python
`set`; only membership and non-emptiness are consumed, so it is embedded as
the list of added elements (a missing `code` contributes Python `None`,
embedded as `Json.null`). `none` means the Python code raises
(`AttributeError`/`TypeError`) on this input. -/
def get_error_codes (data : Json) : Option (List Json) := do
  let errorsVal ← pyGet data "errors" (.arr [])
  let errorsList ← pyIter errorsVal
  let codes ← errorsList.mapM (fun e => do
    let ext ← pyGet e "extensions" (.obj [])
    pyGet1 ext "code")
  let errVal ← pyGet1 data "error"
  if errVal.truthy then
    let ext ← pyGet errVal "extensions" (.obj [])
    let c ← pyGet1 ext "code"
    pure (codes ++ [c])
  else
    pure codes

/-- `client.py` `retry_on_status`: HTTP statuses that raise
`RetriableException` (429, 502, 503, 504). -/
def retry_on_status : List Nat := [429, 502, 503, 504]

/-- `client.py` `shop_unavailable_status`: HTTP statuses that raise
`ShopUnavailableException` (402, 404). -/
def shop_unavailable_status : List Nat := [402, 404]

/-- An HTTP response as seen by `ShopifyClient.graphql`: a status code and,
when the body is valid JSON, its parsed form (`none` embeds a body on which
`response.json()` raises). -/
structure HttpResponse where
  status : Nat
  body : Option Json

/-- Outcome of one attempt of `ShopifyClient.graphql` (client.py 134-164).
The first four constructors are the client's own exception taxonomy plus the
success value; the last three are raw, unclassified Python exceptions that
escape the taxonomy (`httpx.HTTPStatusError` from `raise_for_status`, a JSON
decode error from `response.json()`, and dynamic errors raised while
extracting error codes from an unexpectedly-shaped body). -/
inductive GraphqlOutcome where
  | retriable (status : Nat) : GraphqlOutcome
  | shopUnavailable : GraphqlOutcome
  | throttled (errs : Json) : GraphqlOutcome
  | queryError (errs : Json) : GraphqlOutcome
  | ok (data : Json) : GraphqlOutcome
  | httpStatusError (status : Nat) : GraphqlOutcome
  | jsonDecodeError : GraphqlOutcome
  | pythonError : GraphqlOutcome
deriving Repr

/-- Python `data.get("errors") or data.get("error")`: the payload attached
to `ThrottledException`/`QueryError` (client.py 161-162). Only evaluated
once `get_error_codes` succeeded, which forces `data` to be a dict, so the
`.get` calls cannot fail here. -/
def errsPayload (data : Json) : Json :=
  let a := (pyGet1 data "errors").getD .null
  if a.truthy then a else (pyGet1 data "error").getD .null

/-- One attempt of `ShopifyClient.graphql` (client.py 149-164): classify the
HTTP status against `retry_on_status` and `shop_unavailable_status`, call
`raise_for_status()` (raises unless 2xx), parse the body as JSON, extract
error codes with `get_error_codes`, and classify `THROTTLED` as
`ThrottledException`, any other non-empty code set as `QueryError`, and an
empty code set as success returning the parsed body. -/
def graphqlStep (r : HttpResponse) : GraphqlOutcome :=
  if r.status ∈ retry_on_status then .retriable r.status
  else if r.status ∈ shop_unavailable_status then .shopUnavailable
  else if ¬ (200 ≤ r.status ∧ r.status < 300) then .httpStatusError r.status
  else
    match r.body with
    | none => .jsonDecodeError
    | some data =>
      match get_error_codes data with
      | none => .pythonError
      | some codes =>
        if codes.isEmpty then .ok data
        else if codes.any (fun c => Json.beq c (Json.str "THROTTLED")) then
          .throttled (errsPayload data)
        else .queryError (errsPayload data)

/-- The tenacity wrapper on `ShopifyClient.graphql` (client.py 133):
`retry=retry_if_exception_type(RetriableException)` with no stop condition,
so a `retriable` outcome re-invokes the call on the next response of the
environment, without bound. The result pairs the first non-retriable
outcome with the number of attempts consumed; `none` means every supplied
response was retriable and the decorator is still retrying. -/
def graphqlRetry : List HttpResponse → Option (GraphqlOutcome × Nat)
  | [] => none
  | r :: rest =>
    match graphqlStep r with
    | .retriable _ => (graphqlRetry rest).map (fun p => (p.1, p.2 + 1))
    | o => some (o, 1)

/-- The outcomes a caller of `graphql` can observe that belong to the
client's documented taxonomy (success or one of the library's own exception
classes), as opposed to raw unclassified exceptions. -/
def isTaxonomyOutcome : GraphqlOutcome → Bool
  | .retriable _ => true
  | .shopUnavailable => true
  | .throttled _ => true
  | .queryError _ => true
  | .ok _ => true
  | .httpStatusError _ => false
  | .jsonDecodeError => false
  | .pythonError => false

/-- Python `xs[i]` for a non-negative index on a list (`none`: `IndexError`
or a non-list subscript). -/
def pyIndexNat (j : Json) (i : Nat) : Option Json :=
  match j with
  | .arr xs => xs.get? i
  | _ => none

/-- Python dict assignment `d[k] = v`: overwrite in place when the key
exists, else append (insertion order preserved). -/
def dictSet (kvs : List (String × Json)) (k : String) (v : Json) : List (String × Json) :=
  if kvs.any (fun kv => kv.1 == k) then
    kvs.map (fun kv => if kv.1 == k then (kv.1, v) else kv)
  else kvs ++ [(k, v)]

/-- Python `xs[:m]` for an `int` bound `m` (negative bounds count from the
end, as in Python slicing). -/
def pySliceTo (xs : List Json) (m : Int) : List Json :=
  if 0 ≤ m then xs.take m.toNat
  else xs.take (xs.length - (-m).toNat)

/-- `next((val for _, val in value.items() if "pageInfo" in val), value)`
(client.py 191): the first dict value containing `"pageInfo"`, else the
default; a `TypeError` raised by `in` inside the generator propagates. -/
def pyFindPageInfo : List (String × Json) → Json → Option Json
  | [], dflt => some dflt
  | (_, v) :: rest, dflt => do
    let b ← pyContains v "pageInfo"
    if b then pure v else pyFindPageInfo rest dflt

/-- The body of `for value in data.values()` in
`graphql_call_with_pagination` (client.py 188-203) for a single value,
transforming the `(results, cursor)` state: non-dict values are skipped;
for a dict, the child entity with a `pageInfo` key is located, then the
`edges` branch extends `results` with each edge's `node` and sets the
cursor from `pageInfo.hasNextPage`/`endCursor`, the `nodes` branch extends
`results` and clears the cursor, and any other dict leaves the state
unchanged. `none` embeds a Python `KeyError`/`TypeError`. -/
def processValue (st : List Json × Json) (value : Json) : Option (List Json × Json) :=
  match value with
  | .obj kvs => do
    let v ← pyFindPageInfo kvs (.obj kvs)
    let hasEdges ← pyContains v "edges"
    if hasEdges then do
      let edges ← pyIndex v "edges"
      let edgeList ← pyIter edges
      let nodes ← edgeList.mapM (fun e => pyIndex e "node")
      let hasPI ← pyContains v "pageInfo"
      if hasPI then do
        let pi ← pyIndex v "pageInfo"
        let hnp ← pyIndex pi "hasNextPage"
        if hnp.truthy then do
          let ec ← pyIndex pi "endCursor"
          pure (st.1 ++ nodes, ec)
        else
          pure (st.1 ++ nodes, .null)
      else
        pure (st.1 ++ nodes, .null)
    else do
      let hasNodes ← pyContains v "nodes"
      if hasNodes then do
        let ns ← pyIndex v "nodes"
        let nsList ← pyIter ns
        pure (st.1 ++ nsList, .null)
      else
        pure st
  | _ => pure st

/-- `if max_limit and len(results) >= max_limit` (client.py 206): Python
truthiness of the optional bound followed by the length comparison. -/
def limitHit (maxLimit : Option Int) (len : Nat) : Bool :=
  match maxLimit with
  | some m => m != 0 && decide ((len : Int) ≥ m)
  | none => false

/-- `current_variables = {**variables}` followed by
`current_variables["cursor"] = cursor` when the cursor is not `None`
(client.py 179-181): the per-round copy of the caller's variables. -/
def currentVars (vars : List (String × Json)) (cursor : Json) : List (String × Json) :=
  match cursor with
  | .null => vars
  | c => dictSet vars "cursor" c

/-- The `while True` loop of `graphql_call_with_pagination`
(client.py 177-212). Each round copies the caller's variables
(`{**variables}`), writes the cursor into the copy when not `None`, sends
the request (consuming the next response of `env` and recording the sent
variables), folds `processValue` over `data.values()`, then stops on the
`max_limit` cap (truncating) or on an exhausted cursor. `fuel` bounds the
number of rounds; `none` means fuel or environment ran out before the loop
terminated, or the Python code raised. Returns the accumulated nodes and
the list of per-request variable dicts. -/
def paginateLoop (vars : List (String × Json)) (maxLimit : Option Int) :
    Nat → List Json → List Json → Json → List (List (String × Json)) →
    Option (List Json × List (List (String × Json)))
  | 0, _, _, _, _ => none
  | _, [], _, _, _ => none
  | fuel + 1, response :: envRest, results, cursor, reqs => do
    let currentVariables := currentVars vars cursor
    let data ← pyIndex response "data"
    let values ← match data with
      | .obj kvs => some (kvs.map Prod.snd)
      | _ => none
    let st ← values.foldlM processValue (results, cursor)
    let reqs2 := reqs ++ [currentVariables]
    if limitHit maxLimit st.1.length then
      pure (pySliceTo st.1 (maxLimit.getD 0), reqs2)
    else
      match st.2 with
      | .null => pure (st.1, reqs2)
      | c => paginateLoop vars maxLimit fuel envRest st.1 c reqs2

/-- `ShopifyClient.graphql_call_with_pagination` (client.py 166-214),
starting from empty results and a `None` cursor. -/
def graphql_call_with_pagination (vars : List (String × Json)) (maxLimit : Option Int)
    (env : List Json) (fuel : Nat) : Option (List Json × List (List (String × Json))) :=
  paginateLoop vars maxLimit fuel env [] .null []

/-- `ShopifyClient.is_bulk_job_running` (client.py 216-244), applied to the
response of its `currentBulkOperation(type: job_type)` query: `True` iff
`currentBulkOperation` is not `None` and its `status` is `CREATED` or
`RUNNING`. `none` embeds a Python `KeyError`/`TypeError`. -/
def is_bulk_job_running (resp : Json) : Option Bool := do
  let data ← pyIndex resp "data"
  let cur ← pyIndex data "currentBulkOperation"
  match cur with
  | .null => pure false
  | _ => do
    let status ← pyIndex cur "status"
    pure (Json.beq status (.str "CREATED") || Json.beq status (.str "RUNNING"))

/-- What `ShopifyClient.poll_until_complete` (client.py 246-295) returns or
raises once it stops recursing. -/
inductive PollResult where
  | completed (status : Nat) (content : String) : PollResult
  | jobNotFound : PollResult
  | jobFailed (status : Json) : PollResult
  | downloadHttpError (status : Nat) : PollResult
deriving Repr

/-- `ShopifyClient.poll_until_complete` (client.py 246-295): each recursion
consumes the next `currentBulkOperation` response from `env`. A `None`
operation or an `id` differing from `job_id` raises `ValueError("Job ... not
found")`; status `CREATED`/`RUNNING` sleeps 1 second and recurses; status
`COMPLETED` downloads the result when `url` is truthy (raising on a non-2xx
download) and otherwise returns an empty 204 response without any fetch;
any other status raises `ValueError("Job failed ...")`. Returns the
result together with the number of sleeps and of result downloads; `none`
embeds an exhausted environment (still polling) or a Python error. -/
def poll_until_complete (jobId : Json) (download : Json → Nat × String) :
    List Json → Option (PollResult × Nat × Nat)
  | [] => none
  | resp :: rest => do
    let data ← pyIndex resp "data"
    let cur ← pyIndex data "currentBulkOperation"
    match cur with
    | .null => pure (.jobNotFound, 0, 0)
    | _ => do
      let idv ← pyIndex cur "id"
      if !(Json.beq idv jobId) then
        pure (.jobNotFound, 0, 0)
      else do
        let status ← pyIndex cur "status"
        let _ ← pyIndex cur "objectCount"
        if Json.beq status (.str "CREATED") || Json.beq status (.str "RUNNING") then
          match poll_until_complete jobId download rest with
          | none => none
          | some (res, sleeps, fetches) => pure (res, sleeps + 1, fetches)
        else if Json.beq status (.str "COMPLETED") then do
          let dataUrl ← pyIndex cur "url"
          if dataUrl.truthy then
            let dl := download dataUrl
            if 200 ≤ dl.1 ∧ dl.1 < 300 then pure (.completed dl.1 dl.2, 0, 1)
            else pure (.downloadHttpError dl.1, 0, 1)
          else
            pure (.completed 204 "", 0, 0)
        else
          pure (.jobFailed status, 0, 0)

/-- The requests a bulk-operation submission flow issues, in order. -/
inductive BulkRequest where
  | currentBulkOperation (jobType : String) : BulkRequest
  | bulkOperationRunQuery : BulkRequest
  | stagedUploadsCreate : BulkRequest
  | fileUpload (url : Json) (docs : List Json) : BulkRequest
  | bulkOperationRunMutation : BulkRequest
deriving Repr

/-- Outcome of `run_bulk_operation_query` / `run_bulk_operation_mutation`. -/
inductive BulkResult where
  | bulkQueryInProgress : BulkResult
  | queryError (errs : Json) : BulkResult
  | valueError (errs : Json) : BulkResult
  | jobIdResult (id : Json) : BulkResult
  | reader (content : String) : BulkResult
  | pollError (p : PollResult) : BulkResult
  | uploadHttpError (status : Nat) : BulkResult
deriving Repr

/-- The poll phase's request trace: one `currentBulkOperation` query per
polling round. -/
def pollTrace (jobType : String) (rounds : Nat) : List BulkRequest :=
  List.replicate rounds (.currentBulkOperation jobType)

/-- `ShopifyClient.run_bulk_operation_query` (client.py 297-331): first
`is_bulk_job_running("QUERY")` (one `currentBulkOperation` request),
raising `BulkQueryInProgress` when it reports a running job, **without**
issuing the submission mutation; then the `bulkOperationRunQuery`
submission, raising `QueryError` on truthy `userErrors`; then, with
`wait=True`, `poll_until_complete(job_id, "QUERY")` wrapping the
downloaded bytes in a `jsonlines.Reader`, and with `wait=False` the job
id. Returns the outcome and the full request trace. -/
def run_bulk_operation_query (wait : Bool) (download : Json → Nat × String) :
    List Json → Option (BulkResult × List BulkRequest)
  | [] => none
  | checkResp :: env1 => do
    let running ← is_bulk_job_running checkResp
    if running then
      pure (.bulkQueryInProgress, [.currentBulkOperation "QUERY"])
    else
      match env1 with
      | [] => none
      | submitResp :: env2 => do
        let data ← pyIndex submitResp "data"
        let bq ← pyIndex data "bulkOperationRunQuery"
        let userErrors ← pyIndex bq "userErrors"
        if userErrors.truthy then
          pure (.queryError userErrors, [.currentBulkOperation "QUERY", .bulkOperationRunQuery])
        else do
          let bop ← pyIndex bq "bulkOperation"
          let jid ← pyIndex bop "id"
          if wait then
            match poll_until_complete jid download env2 with
            | none => none
            | some (.completed _ content, sleeps, _) =>
              pure (.reader content,
                [.currentBulkOperation "QUERY", .bulkOperationRunQuery] ++
                  pollTrace "QUERY" (sleeps + 1))
            | some (p, sleeps, _) =>
              pure (.pollError p,
                [.currentBulkOperation "QUERY", .bulkOperationRunQuery] ++
                  pollTrace "QUERY" (sleeps + 1))
          else
            pure (.jobIdResult jid, [.currentBulkOperation "QUERY", .bulkOperationRunQuery])

/-- `rows = [{key: row} for row in rows]` when a wrapping key is configured
(client.py 402-403); with `key=None` the rows are written as they are. -/
def wrapRows (key : Option String) (rows : List Json) : List Json :=
  match key with
  | some k => rows.map (fun r => .obj [(k, r)])
  | none => rows

/-- Re-decoding one line of the uploaded JSON-lines payload back to the
original row: with a configured key the document is `{key: row}`, so the
row is recovered by subscripting; with `key=None` the document is the row
itself. -/
def unwrapRow (key : Option String) (doc : Json) : Option Json :=
  match key with
  | some k => pyIndex doc k
  | none => some doc

/-- `jsonlines.Writer.write_all` followed by a line-by-line
`jsonlines.Reader` decode. The `jsonlines` codec is an external
collaborator of the specified core (spec §1 excludes JSONL encoding
helpers), so it is modelled at the document level: the payload written is
the sequence of JSON documents, one per line, and re-decoding yields that
same sequence. -/
def jsonlinesRoundTrip (docs : List Json) : List Json := docs

/-- The staging phase of `ShopifyClient.run_bulk_operation_mutation`
(client.py 336-416): the `stagedUploadsCreate` response is checked for a
falsy `data` (raising `ValueError(response["errors"])`), `stagedTargets[0]`
supplies the upload `url` and `parameters`, the upload form fields are
`{param["name"]: (param["value"],)}` (later parameters overriding earlier
ones) with `data["key"][0]` as the staged upload path, each row is wrapped
under `key` when one is configured, and the JSON-lines payload is uploaded
(raising on a non-2xx upload status). `inl` aborts the flow with a result;
`inr` carries the upload url and the uploaded documents forward. -/
def bulkMutationStagePhase (rows : List Json) (key : Option String) (uploadStatus : Nat)
    (stageResp : Json) :
    Option (Sum (BulkResult × List BulkRequest) (Json × List Json)) := do
  let dataOpt ← pyGet1 stageResp "data"
  if !dataOpt.truthy then do
    let errs ← pyIndex stageResp "errors"
    pure (Sum.inl (.valueError errs, [.stagedUploadsCreate]))
  else do
    let data ← pyIndex stageResp "data"
    let suc ← pyIndex data "stagedUploadsCreate"
    let targets ← pyIndex suc "stagedTargets"
    let target0 ← pyIndexNat targets 0
    let uploadUrl ← pyIndex target0 "url"
    let params ← pyIndex target0 "parameters"
    let paramsList ← pyIter params
    let formFields ← paramsList.mapM (fun p => do
      let n ← pyIndex p "name"
      let v ← pyIndex p "value"
      pure (n, v))
    let _stagedPath ← (formFields.reverse.find? (fun kv => Json.beq kv.1 (.str "key"))).map
      Prod.snd
    let docs := wrapRows key rows
    if !(200 ≤ uploadStatus && uploadStatus < 300) then
      pure (Sum.inl (.uploadHttpError uploadStatus,
        [.stagedUploadsCreate, .fileUpload uploadUrl docs]))
    else
      pure (Sum.inr (uploadUrl, docs))

/-- The submission phase of `ShopifyClient.run_bulk_operation_mutation`
(client.py 422-467): the `bulkOperationRunMutation` response is checked for
a falsy `data` and for truthy `userErrors` (both raising `ValueError`);
with `wait=False` the job id is returned, otherwise
`poll_until_complete(job_id, "MUTATION")` runs on the rest of the
environment and the downloaded bytes are wrapped in a `jsonlines.Reader`. -/
def bulkMutationRunPhase (wait : Bool) (download : Json → Nat × String)
    (runTrace : List BulkRequest) (runResp : Json) (env2 : List Json) :
    Option (BulkResult × List BulkRequest) := do
  let rdataOpt ← pyGet1 runResp "data"
  if !rdataOpt.truthy then do
    let errs ← pyIndex runResp "errors"
    pure (.valueError errs, runTrace)
  else do
    let rdata ← pyIndex runResp "data"
    let bm ← pyIndex rdata "bulkOperationRunMutation"
    let userErrors ← pyIndex bm "userErrors"
    if userErrors.truthy then
      pure (.valueError userErrors, runTrace)
    else do
      let bop ← pyIndex bm "bulkOperation"
      let jid ← pyIndex bop "id"
      if !wait then
        pure (.jobIdResult jid, runTrace)
      else
        match poll_until_complete jid download env2 with
        | none => none
        | some (.completed _ content, sleeps, _) =>
          pure (.reader content, runTrace ++ pollTrace "MUTATION" (sleeps + 1))
        | some (p, sleeps, _) =>
          pure (.pollError p, runTrace ++ pollTrace "MUTATION" (sleeps + 1))

/-- `ShopifyClient.run_bulk_operation_mutation` (client.py 333-467). The
flow performs **no** `is_bulk_job_running` check: it immediately issues the
`stagedUploadsCreate` mutation and uploads the wrapped rows
(`bulkMutationStagePhase`), then issues the `bulkOperationRunMutation`
submission and optionally polls (`bulkMutationRunPhase`). `uploadStatus`
is the HTTP status of the multipart upload; `env` supplies the successive
graphql responses. Returns the outcome and the full request trace (the
upload entry records the target url and the uploaded documents). -/
def run_bulk_operation_mutation (rows : List Json) (key : Option String) (wait : Bool)
    (uploadStatus : Nat) (download : Json → Nat × String) :
    List Json → Option (BulkResult × List BulkRequest)
  | [] => none
  | stageResp :: env1 => do
    match ← bulkMutationStagePhase rows key uploadStatus stageResp with
    | .inl res => pure res
    | .inr (uploadUrl, docs) =>
      match env1 with
      | [] => none
      | runResp :: env2 =>
        bulkMutationRunPhase wait download
          [.stagedUploadsCreate, .fileUpload uploadUrl docs, .bulkOperationRunMutation]
          runResp env2

/-- `constants.py` `ONE_SECOND`: one second in milliseconds, the cost
limiter's window. -/
def ONE_SECOND : Int := 1000

/-- `options.py` `Options.max_retries` default: number of retries that
should happen if failed. -/
def default_max_retries : Nat := 2

/-- `options.py` `Options.graphql_limit` default: cost points allowed per
second for GraphQL. -/
def default_graphql_limit : Int := 50

/-- Terminal state of the bounded-retry request pipeline: the last
response's HTTP status together with the recorded retry count
(`ApiResult.retries` in `models.py`). -/
inductive PipelineOutcome where
  | okResult (status : Nat) (retryCount : Nat) : PipelineOutcome
  | failed (status : Nat) (retryCount : Nat) : PipelineOutcome
deriving DecidableEq, Repr

/-- The retry count recorded in a pipeline outcome. -/
def PipelineOutcome.retryCount : PipelineOutcome → Nat
  | .okResult _ n => n
  | .failed _ n => n

/-- Modelled from the spec: the retry orchestration of the repository's
`AsyncClient.graphql` request pipeline, whose implementation is absent from
`src/` (only its declarations — `Options.max_retries` in `options.py`,
`ApiResult.retries` in `models.py` — and its test `test_client_limits.py`
remain). Spec §4.1: "on a retryable exception, sleep for a backoff delay
and reinvoke, incrementing a retry counter threaded through the call;
exceeding `max_retries` lets the exception surface to the caller"; §8:
"the pipeline retries up to `max_retries` times and then propagates the
terminal error with `retry_count == max_retries`". `statuses n` is the
HTTP status of attempt `n` (attempt `n` has `n` prior retries); a status
in `retry_on_status` is retryable; `remaining` is `max_retries` minus the
retries so far. -/
def modelRetryAux (statuses : Nat → Nat) : Nat → Nat → PipelineOutcome
  | remaining, retries =>
    if statuses retries ∈ retry_on_status then
      match remaining with
      | 0 => .failed (statuses retries) retries
      | r + 1 => modelRetryAux statuses r (retries + 1)
    else
      .okResult (statuses retries) retries

/-- Modelled from the spec: one logical `AsyncClient.graphql` call with its
bounded retry loop (see `modelRetryAux`), starting from zero retries. -/
def modelRetry (maxRetries : Nat) (statuses : Nat → Nat) : PipelineOutcome :=
  modelRetryAux statuses maxRetries 0

/-- Modelled from the spec: the Cost Limiter's `shouldDelay` (spec §4.2),
whose implementation is absent from `src/` (only its declarations —
`ONE_SECOND` in `constants.py`, `Options.graphql_limit`, the
time/cost stores imported by `options.py` — and its test
`test_client_limits.py` remain). Spec §4.2: with no recorded calls, no
delay; when more than the 1-second window has elapsed since the last
recorded call, no delay; within the window, a last recorded cost under the
budget gives no delay, and a cost at/over the budget delays for
`window - elapsed`. The returned duration is in milliseconds; `0` is
Python-falsy, i.e. "no delay". -/
def shouldDelay (timeStore costStore : List Int) (now budget : Int) : Int :=
  match timeStore.getLast?, costStore.getLast? with
  | some t, some c =>
    let elapsed := now - t
    if elapsed > ONE_SECOND then 0
    else if c < budget then 0
    else ONE_SECOND - elapsed
  | _, _ => 0


/-- Whether a request is a `currentBulkOperation` status check. -/
def BulkRequest.isCurrentBulkOperation : BulkRequest → Bool
  | .currentBulkOperation _ => true
  | _ => false

/-- Fixture for the bulk-submission claims: a `currentBulkOperation`
response reporting a `RUNNING` job. -/
def c2CheckResp : Json :=
  .obj [("data", .obj [("currentBulkOperation", .obj
    [("id", .str "gid://shopify/BulkOperation/9"), ("status", .str "RUNNING")])])]

/-- Fixture: a successful `stagedUploadsCreate` response with one staged
target. -/
def c2StageResp : Json :=
  .obj [("data", .obj [("stagedUploadsCreate", .obj [
    ("userErrors", .arr []),
    ("stagedTargets", .arr [.obj [
      ("url", .str "https://upload.com"),
      ("parameters", .arr [.obj [("name", .str "key"), ("value", .str "tmp/file.jsonl")]])]])])])]

/-- Fixture: a successful `bulkOperationRunMutation` response. -/
def c2RunResp : Json :=
  .obj [("data", .obj [("bulkOperationRunMutation", .obj [
    ("bulkOperation", .obj [("id", .str "gid://shopify/BulkOperation/1")]),
    ("userErrors", .arr [])])])]

/-- Fixture for the pagination claim: a one-connection page response with
the given nodes, `hasNextPage` flag and `endCursor`. -/
def c5Page (nodes : List Json) (hasNext : Bool) (endCur : Json) : Json :=
  .obj [("data", .obj [("products", .obj [
    ("edges", .arr (nodes.map (fun n => .obj [("node", n)]))),
    ("pageInfo", .obj [("hasNextPage", .bool hasNext), ("endCursor", endCur)])])])]

/-- Fixture for the polling claim: a `currentBulkOperation` response with
the fields the client reads. -/
def c6Resp (jid status : String) (url : Json) : Json :=
  .obj [("data", .obj [("currentBulkOperation", .obj
    [("id", .str jid), ("status", .str status), ("objectCount", .num 1), ("url", url)])])]

/-- Fixture for the JSON-lines round-trip claim: a successful
`stagedUploadsCreate` response. -/
def c8StageResp : Json :=
  .obj [("data", .obj [("stagedUploadsCreate", .obj [
    ("userErrors", .arr []),
    ("stagedTargets", .arr [.obj [
      ("url", .str "https://upload.com"),
      ("parameters", .arr [.obj [("name", .str "key"), ("value", .str "tmp/rows.jsonl")]])]])])])]

/-- Fixture for the JSON-lines round-trip claim: a successful
`bulkOperationRunMutation` response. -/
def c8RunResp : Json :=
  .obj [("data", .obj [("bulkOperationRunMutation", .obj [
    ("bulkOperation", .obj [("id", .str "gid://shopify/BulkOperation/1")]),
    ("userErrors", .arr [])])])]

/-! ## Helper lemmas -/

/-- Inversion of a monadic `Option` bind that produced a value. -/
theorem optBind_eq_some {α β : Type} {x : Option α} {f : α → Option β} {b : β} :
    x >>= f = some b ↔ ∃ a, x = some a ∧ f a = some b := by
  cases x <;> simp

/-- The per-round variables are the caller's dict or a copy of it extended
at the key `"cursor"` with a non-`None` cursor. -/
theorem currentVars_shape (vars : List (String × Json)) (cursor : Json) :
    currentVars vars cursor = vars ∨
      ∃ c, ¬ c = Json.null ∧ currentVars vars cursor = dictSet vars "cursor" c := by
  cases cursor
  case null => left; rfl
  all_goals (right; exact ⟨_, by simp, rfl⟩)

/-- Every request recorded by `paginateLoop` carries either the untouched
caller variables or a copy extended at `"cursor"`. -/
theorem paginateLoop_requests (vars : List (String × Json)) (maxLimit : Option Int) :
    ∀ (fuel : Nat) (env results : List Json) (cursor : Json)
      (reqs : List (List (String × Json))) (out : List Json × List (List (String × Json))),
      paginateLoop vars maxLimit fuel env results cursor reqs = some out →
      ∀ r ∈ out.2, r ∈ reqs ∨ r = vars ∨ ∃ c, ¬ c = Json.null ∧ r = dictSet vars "cursor" c := by
  intro fuel
  induction fuel with
  | zero =>
    intro env results cursor reqs out h
    simp [paginateLoop] at h
  | succ n ih =>
    intro env results cursor reqs out h r hr
    match env with
    | [] => simp [paginateLoop] at h
    | response :: envRest =>
      have hcvs := currentVars_shape vars cursor
      have hmemcv : r ∈ reqs ++ [currentVars vars cursor] →
          r ∈ reqs ∨ r = vars ∨ ∃ c, ¬ c = Json.null ∧ r = dictSet vars "cursor" c := by
        intro hm
        rcases List.mem_append.mp hm with hm | hm
        · exact Or.inl hm
        · have heq : r = currentVars vars cursor := by simpa using hm
          subst heq
          rcases hcvs with hcv | ⟨c0, hc0, hcv⟩
          · exact Or.inr (Or.inl hcv)
          · exact Or.inr (Or.inr ⟨c0, hc0, hcv⟩)
      simp only [paginateLoop] at h
      rw [optBind_eq_some] at h
      obtain ⟨data, hdata, h⟩ := h
      cases data
      case obj kvs =>
        rw [optBind_eq_some] at h
        obtain ⟨values, hvals, h⟩ := h
        rw [optBind_eq_some] at h
        obtain ⟨st, hst, h⟩ := h
        by_cases hl : limitHit maxLimit st.1.length = true
        · simp only [hl, if_true, pure, Option.some_inj] at h
          subst h
          exact hmemcv hr
        · simp only [Bool.not_eq_true] at hl
          simp only [hl, Bool.false_eq_true, if_false] at h
          cases hc2 : st.2
          · rw [hc2] at h
            simp only [pure, Option.some_inj] at h
            subst h
            exact hmemcv hr
          all_goals (
            rw [hc2] at h
            rcases ih envRest st.1 _ (reqs ++ [currentVars vars cursor]) out h r hr with
              hm | hm | hm
            · exact hmemcv hm
            · exact Or.inr (Or.inl hm)
            · exact Or.inr (Or.inr hm))
      all_goals simp at h

/-- An all-retryable status sequence drives `modelRetryAux` to the terminal
failure, with the retry counter advanced by exactly `remaining`. -/
theorem modelRetryAux_all_retryable (statuses : Nat → Nat) :
    ∀ remaining retries,
      (∀ i, retries ≤ i → i ≤ retries + remaining → statuses i ∈ retry_on_status) →
      modelRetryAux statuses remaining retries =
        .failed (statuses (retries + remaining)) (retries + remaining) := by
  intro remaining
  induction remaining with
  | zero =>
    intro retries h
    have h0 : statuses retries ∈ retry_on_status := h retries le_rfl (by omega)
    simp [modelRetryAux, h0]
  | succ r ih =>
    intro retries h
    have h0 : statuses retries ∈ retry_on_status := h retries le_rfl (by omega)
    have h2 := ih (retries + 1) (fun i hi1 hi2 => h i (by omega) (by omega))
    have harg : retries + 1 + r = retries + (r + 1) := by omega
    rw [harg] at h2
    simp only [modelRetryAux, h0, if_true]
    exact h2

/-- The retry counter recorded by `modelRetryAux` never exceeds the retries
already taken plus the remaining budget. -/
theorem modelRetryAux_retryCount_le (statuses : Nat → Nat) :
    ∀ remaining retries,
      (modelRetryAux statuses remaining retries).retryCount ≤ retries + remaining := by
  intro remaining
  induction remaining with
  | zero =>
    intro retries
    by_cases h : statuses retries ∈ retry_on_status <;>
      simp [modelRetryAux, h, PipelineOutcome.retryCount]
  | succ r ih =>
    intro retries
    by_cases h : statuses retries ∈ retry_on_status
    · simp only [modelRetryAux, h, if_true]
      have := ih (retries + 1)
      omega
    · simp [modelRetryAux, h, PipelineOutcome.retryCount]

/-- The staging phase can only abort with a trace headed by the
`stagedUploadsCreate` request and never with `BulkQueryInProgress`. -/
theorem bulkMutationStagePhase_inl_shape (rows : List Json) (key : Option String) (us : Nat)
    (stageResp : Json) (res : BulkResult) (trace : List BulkRequest)
    (h : bulkMutationStagePhase rows key us stageResp = some (.inl (res, trace))) :
    trace.head? = some .stagedUploadsCreate ∧ ¬ res = .bulkQueryInProgress := by
  unfold bulkMutationStagePhase at h
  rw [optBind_eq_some] at h
  obtain ⟨dataOpt, hd, h⟩ := h
  split at h
  · rw [optBind_eq_some] at h
    obtain ⟨errs, he, h⟩ := h
    simp only [Option.pure_def, Option.some_inj, Sum.inl.injEq, Prod.mk.injEq] at h
    obtain ⟨h1, h2⟩ := h
    subst h1
    subst h2
    exact ⟨rfl, by simp⟩
  · rw [optBind_eq_some] at h
    obtain ⟨data, _, h⟩ := h
    rw [optBind_eq_some] at h
    obtain ⟨suc, _, h⟩ := h
    rw [optBind_eq_some] at h
    obtain ⟨targets, _, h⟩ := h
    rw [optBind_eq_some] at h
    obtain ⟨target0, _, h⟩ := h
    rw [optBind_eq_some] at h
    obtain ⟨uploadUrl, _, h⟩ := h
    rw [optBind_eq_some] at h
    obtain ⟨params, _, h⟩ := h
    rw [optBind_eq_some] at h
    obtain ⟨paramsList, _, h⟩ := h
    rw [optBind_eq_some] at h
    obtain ⟨formFields, _, h⟩ := h
    rw [optBind_eq_some] at h
    obtain ⟨sp, _, h⟩ := h
    split at h
    · simp only [Option.pure_def, Option.some_inj, Sum.inl.injEq, Prod.mk.injEq] at h
      obtain ⟨h1, h2⟩ := h
      subst h1
      subst h2
      exact ⟨rfl, by simp⟩
    · simp at h

/-- The submission phase extends the staging trace and never produces
`BulkQueryInProgress`. -/
theorem bulkMutationRunPhase_shape (wait : Bool) (download : Json → Nat × String)
    (runTrace : List BulkRequest) (runResp : Json) (env2 : List Json)
    (res : BulkResult) (trace : List BulkRequest)
    (h : bulkMutationRunPhase wait download runTrace runResp env2 = some (res, trace)) :
    (∃ suffix, trace = runTrace ++ suffix) ∧ ¬ res = .bulkQueryInProgress := by
  unfold bulkMutationRunPhase at h
  rw [optBind_eq_some] at h
  obtain ⟨rdataOpt, _, h⟩ := h
  split at h
  · rw [optBind_eq_some] at h
    obtain ⟨errs, _, h⟩ := h
    simp only [Option.pure_def, Option.some_inj, Prod.mk.injEq] at h
    obtain ⟨h1, h2⟩ := h
    subst h1
    subst h2
    exact ⟨⟨[], by simp⟩, by simp⟩
  · rw [optBind_eq_some] at h
    obtain ⟨rdata, _, h⟩ := h
    rw [optBind_eq_some] at h
    obtain ⟨bm, _, h⟩ := h
    rw [optBind_eq_some] at h
    obtain ⟨userErrors, _, h⟩ := h
    split at h
    · simp only [Option.pure_def, Option.some_inj, Prod.mk.injEq] at h
      obtain ⟨h1, h2⟩ := h
      subst h1
      subst h2
      exact ⟨⟨[], by simp⟩, by simp⟩
    · rw [optBind_eq_some] at h
      obtain ⟨bop, _, h⟩ := h
      rw [optBind_eq_some] at h
      obtain ⟨jid, _, h⟩ := h
      split at h
      · simp only [Option.pure_def, Option.some_inj, Prod.mk.injEq] at h
        obtain ⟨h1, h2⟩ := h
        subst h1
        subst h2
        exact ⟨⟨[], by simp⟩, by simp⟩
      · split at h
        · simp at h
        · simp only [Option.pure_def, Option.some_inj, Prod.mk.injEq] at h
          obtain ⟨h1, h2⟩ := h
          subst h1
          subst h2
          exact ⟨⟨_, rfl⟩, by simp⟩
        · simp only [Option.pure_def, Option.some_inj, Prod.mk.injEq] at h
          obtain ⟨h1, h2⟩ := h
          subst h1
          subst h2
          exact ⟨⟨_, rfl⟩, by simp⟩

/-- Every terminating run of the mutation flow starts its request trace
with `stagedUploadsCreate` and never produces `BulkQueryInProgress`. -/
theorem run_bulk_operation_mutation_shape (rows : List Json) (key : Option String)
    (wait : Bool) (us : Nat) (download : Json → Nat × String) (env : List Json)
    (res : BulkResult) (trace : List BulkRequest)
    (h : run_bulk_operation_mutation rows key wait us download env = some (res, trace)) :
    trace.head? = some .stagedUploadsCreate ∧ ¬ res = .bulkQueryInProgress := by
  match env with
  | [] => simp [run_bulk_operation_mutation] at h
  | stageResp :: env1 =>
    simp only [run_bulk_operation_mutation] at h
    rw [optBind_eq_some] at h
    obtain ⟨x, hx, h⟩ := h
    match x with
    | .inl res2 =>
      simp only [Option.pure_def, Option.some_inj] at h
      subst h
      exact bulkMutationStagePhase_inl_shape rows key us stageResp res trace hx
    | .inr (uploadUrl, docs) =>
      match env1 with
      | [] => simp at h
      | runResp :: env2 =>
        have hs := bulkMutationRunPhase_shape wait download
          [.stagedUploadsCreate, .fileUpload uploadUrl docs, .bulkOperationRunMutation]
          runResp env2 res trace h
        obtain ⟨⟨suffix, hsu⟩, hres⟩ := hs
        subst hsu
        exact ⟨rfl, hres⟩

/-! ## Claim theorems -/

/-- C1: for every sequence of responses whose statuses are all in
{429, 502, 503, 504}, the (spec-modelled) bounded request pipeline retries
exactly `max_retries` times and then surfaces the terminal error with the
recorded retry count equal to `max_retries`; and on every response
sequence whatsoever the recorded retry count is bounded by `max_retries`. -/
theorem c1_retry_bounded (maxRetries : Nat) (statuses : Nat → Nat) :
    ((∀ i, i ≤ maxRetries → statuses i ∈ retry_on_status) →
      modelRetry maxRetries statuses = .failed (statuses maxRetries) maxRetries) ∧
    (modelRetry maxRetries statuses).retryCount ≤ maxRetries := by
  constructor
  · intro h
    have hm := modelRetryAux_all_retryable statuses maxRetries 0 (fun i h1 h2 => h i (by omega))
    simpa [modelRetry] using hm
  · have hm := modelRetryAux_retryCount_le statuses maxRetries 0
    simpa [modelRetry] using hm

/-- C1 witness: with the default `max_retries` of 2 and an all-429 response
sequence, the pipeline fails terminally with retry count 2. -/
theorem c1_retry_bounded_witness :
    modelRetry default_max_retries (fun _ => 429) = .failed 429 default_max_retries :=
  (c1_retry_bounded default_max_retries (fun _ => 429)).1 (fun i _ => by decide)

/-- C3: a response with status in {429, 502, 503, 504} raises the
retryable error, and a response with status in {402, 404} raises the
shop-unavailable error and is never retried (the call ends after one
attempt whatever responses would follow), both decided on the raw status
before the body is parsed (the body, even an unparseable one, is
unconstrained). -/
theorem c3_status_classification (r : HttpResponse) (rest : List HttpResponse) :
    (r.status ∈ retry_on_status → graphqlStep r = .retriable r.status) ∧
    (r.status ∈ shop_unavailable_status →
      graphqlStep r = .shopUnavailable ∧ graphqlRetry (r :: rest) = some (.shopUnavailable, 1)) := by
  constructor
  · intro h
    simp [graphqlStep, h]
  · intro h
    have hn : r.status ∉ retry_on_status := by
      simp [shop_unavailable_status] at h
      rcases h with h | h <;> simp [retry_on_status, h]
    have h1 : graphqlStep r = .shopUnavailable := by
      simp [graphqlStep, hn, h]
    refine ⟨h1, ?_⟩
    simp [graphqlRetry, h1]

/-- C3 witness: a 429 response with an unparseable body classifies as
retryable; a 404 response classifies as shop-unavailable and the call
terminates on the first attempt. -/
theorem c3_status_classification_witness :
    graphqlStep ⟨429, none⟩ = .retriable 429 ∧
    graphqlStep ⟨404, none⟩ = .shopUnavailable ∧
    graphqlRetry [⟨404, none⟩] = some (.shopUnavailable, 1) :=
  ⟨(c3_status_classification ⟨429, none⟩ []).1 (by decide),
   ((c3_status_classification ⟨404, none⟩ []).2 (by decide)).1,
   ((c3_status_classification ⟨404, none⟩ []).2 (by decide)).2⟩

/-- C4: for a 2xx response whose parsed body yields error codes, the call
raises the throttling error when `THROTTLED` is among the codes, raises
the fatal query error when the codes are non-empty without `THROTTLED`,
and returns the parsed body when no top-level errors are present. -/
theorem c4_error_code_classification (data : Json) (codes : List Json)
    (h : get_error_codes data = some codes) :
    (codes.any (fun c => Json.beq c (.str "THROTTLED")) = true →
      graphqlStep ⟨200, some data⟩ = .throttled (errsPayload data)) ∧
    (¬ codes = [] → codes.any (fun c => Json.beq c (.str "THROTTLED")) = false →
      graphqlStep ⟨200, some data⟩ = .queryError (errsPayload data)) ∧
    (codes = [] → graphqlStep ⟨200, some data⟩ = .ok data) := by
  refine ⟨?_, ?_, ?_⟩
  · intro hth
    have hne : codes.isEmpty = false := by
      cases codes
      · simp at hth
      · rfl
    simp [graphqlStep, retry_on_status, shop_unavailable_status, h, hne, hth]
  · intro hne hth
    have hne2 : codes.isEmpty = false := by
      cases codes
      · simp at hne
      · rfl
    simp [graphqlStep, retry_on_status, shop_unavailable_status, h, hne2, hth]
  · intro he
    subst he
    simp [graphqlStep, retry_on_status, shop_unavailable_status, h]

/-- C4 witness: the body `{"errors":[{"extensions":{"code":"THROTTLED"}}]}`
classifies as throttled, `{"errors":[{"message":"boom"}]}` as a query
error, and `{"data":{}}` is returned as-is. -/
theorem c4_error_code_classification_witness :
    graphqlStep ⟨200, some (.obj [("errors",
        .arr [.obj [("extensions", .obj [("code", .str "THROTTLED")])]])])⟩ =
      .throttled (.arr [.obj [("extensions", .obj [("code", .str "THROTTLED")])]]) ∧
    graphqlStep ⟨200, some (.obj [("errors", .arr [.obj [("message", .str "boom")]])])⟩ =
      .queryError (.arr [.obj [("message", .str "boom")]]) ∧
    graphqlStep ⟨200, some (.obj [("data", .obj [])])⟩ = .ok (.obj [("data", .obj [])]) :=
  ⟨(c4_error_code_classification
      (.obj [("errors", .arr [.obj [("extensions", .obj [("code", .str "THROTTLED")])]])])
      [.str "THROTTLED"] rfl).1 rfl,
   (c4_error_code_classification
      (.obj [("errors", .arr [.obj [("message", .str "boom")]])]) [.null] rfl).2.1
      (by simp) rfl,
   (c4_error_code_classification (.obj [("data", .obj [])]) [] rfl).2.2 rfl⟩

/-- C2 counterexample: a complete, successful run of
`run_bulk_operation_mutation` whose request trace contains no
`currentBulkOperation` status check at all — the MUTATION-kind submission
issues the staged upload and the submission mutation straight away, so it
cannot fail with `BulkQueryInProgress` however the remote
`currentBulkOperation` state looks, refuting the claim for the MUTATION
kind. -/
theorem c2_mutation_submit_unchecked_counterexample :
    run_bulk_operation_mutation [Json.obj [("title", Json.str "T")]] (some "input") false 200
        (fun _ => (200, "")) [c2StageResp, c2RunResp] =
      some (.jobIdResult (.str "gid://shopify/BulkOperation/1"),
        [.stagedUploadsCreate,
         .fileUpload (.str "https://upload.com")
           [Json.obj [("input", Json.obj [("title", Json.str "T")])]],
         .bulkOperationRunMutation]) ∧
    ([.stagedUploadsCreate,
      .fileUpload (.str "https://upload.com")
        [Json.obj [("input", Json.obj [("title", Json.str "T")])]],
      (.bulkOperationRunMutation : BulkRequest)].all
        (fun r => ! r.isCurrentBulkOperation)) = true :=
  ⟨rfl, rfl⟩

/-- C2 (amended): only the QUERY-kind submission first queries
`currentBulkOperation` and fails with `BulkQueryInProgress` — without
issuing the submission mutation — when a job of that kind is `CREATED` or
`RUNNING`; the MUTATION-kind submission performs no such check: its first
request is always the `stagedUploadsCreate` mutation and it never fails
with `BulkQueryInProgress`. -/
theorem c2_bulk_submit_guard_amended :
    (∀ (checkResp : Json) (env : List Json) (download : Json → Nat × String) (wait : Bool),
      is_bulk_job_running checkResp = some true →
      run_bulk_operation_query wait download (checkResp :: env) =
        some (.bulkQueryInProgress, [.currentBulkOperation "QUERY"])) ∧
    (∀ (rows : List Json) (key : Option String) (wait : Bool) (us : Nat)
      (download : Json → Nat × String) (env : List Json) (res : BulkResult)
      (trace : List BulkRequest),
      run_bulk_operation_mutation rows key wait us download env = some (res, trace) →
      trace.head? = some .stagedUploadsCreate ∧ ¬ res = .bulkQueryInProgress) := by
  constructor
  · intro checkResp env download wait h
    simp only [run_bulk_operation_query]
    rw [optBind_eq_some]
    exact ⟨true, h, by simp⟩
  · intro rows key wait us download env res trace h
    exact run_bulk_operation_mutation_shape rows key wait us download env res trace h

/-- C2 witness: a `RUNNING` current bulk operation makes the QUERY-kind
submission fail with `BulkQueryInProgress` after the single status-check
request, and a concrete successful MUTATION-kind run starts with the
staged upload and does not produce `BulkQueryInProgress`. -/
theorem c2_bulk_submit_guard_witness :
    run_bulk_operation_query false (fun _ => (200, "")) [c2CheckResp] =
      some (.bulkQueryInProgress, [.currentBulkOperation "QUERY"]) ∧
    ([BulkRequest.stagedUploadsCreate,
      .fileUpload (.str "https://upload.com") [Json.obj [("t", Json.null)]],
      .bulkOperationRunMutation].head? = some .stagedUploadsCreate ∧
     ¬ (BulkResult.jobIdResult (.str "gid://shopify/BulkOperation/1")) = .bulkQueryInProgress) :=
  ⟨c2_bulk_submit_guard_amended.1 c2CheckResp [] (fun _ => (200, "")) false rfl,
   c2_bulk_submit_guard_amended.2 [Json.obj [("t", Json.null)]] none false 200
     (fun _ => (200, "")) [c2StageResp, c2RunResp]
     (.jobIdResult (.str "gid://shopify/BulkOperation/1"))
     [.stagedUploadsCreate,
      .fileUpload (.str "https://upload.com") [Json.obj [("t", Json.null)]],
      .bulkOperationRunMutation] rfl⟩

/-- C5: on a 2-page connection (page 1: two nodes with `hasNextPage=true`,
page 2: one node with `hasNextPage=false`), pagination with no limit
returns exactly the 3 nodes in page order over 2 requests, and with
`max_limit=2` returns exactly the first 2 nodes and issues exactly 1
request. -/
theorem c5_pagination_two_pages (n1 n2 n3 : Json) (cur : String) :
    graphql_call_with_pagination [] none
      [c5Page [n1, n2] true (.str cur), c5Page [n3] false .null] 2 =
      some ([n1, n2, n3], [[], [("cursor", .str cur)]]) ∧
    graphql_call_with_pagination [] (some 2)
      [c5Page [n1, n2] true (.str cur), c5Page [n3] false .null] 2 =
      some ([n1, n2], [[]]) :=
  ⟨rfl, rfl⟩

/-- C6: a poll observing `RUNNING`, `RUNNING`, `COMPLETED` with a populated
result url sleeps exactly twice (the code sleeps 1 second per
`CREATED`/`RUNNING` round) and returns the response fetched from that url
in exactly one download; a poll observing `COMPLETED` with a null url
returns the explicit empty 204 response with zero downloads. -/
theorem c6_poll_sequence (jid u content : String) (dl : Json → Nat × String)
    (h : ¬ u = "") (hdl : dl (.str u) = (200, content)) :
    poll_until_complete (.str jid) dl
      [c6Resp jid "RUNNING" (.str u), c6Resp jid "RUNNING" (.str u),
       c6Resp jid "COMPLETED" (.str u)] = some (.completed 200 content, 2, 1) ∧
    poll_until_complete (.str jid) dl [c6Resp jid "COMPLETED" .null] =
      some (.completed 204 "", 0, 0) := by
  have hne : u.isEmpty = false := by
    cases he : u.isEmpty
    · rfl
    · exact absurd ((String.isEmpty_iff u).mp he) h
  constructor
  · simp [poll_until_complete, c6Resp, pyIndex, Json.beq, Json.truthy, hne, hdl]
  · simp [poll_until_complete, c6Resp, pyIndex, Json.beq, Json.truthy]

/-- C6 witness: the two polling scenarios at a concrete job id, url and
download oracle. -/
theorem c6_poll_sequence_witness :
    poll_until_complete (.str "gid://shopify/BulkOperation/1") (fun _ => (200, "rows"))
      [c6Resp "gid://shopify/BulkOperation/1" "RUNNING" (.str "https://download.com"),
       c6Resp "gid://shopify/BulkOperation/1" "RUNNING" (.str "https://download.com"),
       c6Resp "gid://shopify/BulkOperation/1" "COMPLETED" (.str "https://download.com")] =
      some (.completed 200 "rows", 2, 1) ∧
    poll_until_complete (.str "gid://shopify/BulkOperation/1") (fun _ => (200, "rows"))
      [c6Resp "gid://shopify/BulkOperation/1" "COMPLETED" .null] =
      some (.completed 204 "", 0, 0) :=
  c6_poll_sequence "gid://shopify/BulkOperation/1" "https://download.com" "rows"
    (fun _ => (200, "rows")) (by decide) rfl

/-- C7 counterexample: an HTTP 500 response — a status outside both
classified sets — makes `raise_for_status()` raise a raw
`httpx.HTTPStatusError`, and an unparseable 200 body raises a raw JSON
decode error; neither is a taxonomy outcome, refuting the claim that
callers never receive a raw, unclassified transport exception. -/
theorem c7_raw_exception_counterexample :
    graphqlStep ⟨500, some (.obj [])⟩ = .httpStatusError 500 ∧
    isTaxonomyOutcome (.httpStatusError 500) = false ∧
    graphqlStep ⟨200, none⟩ = .jsonDecodeError ∧
    isTaxonomyOutcome .jsonDecodeError = false :=
  ⟨rfl, rfl, rfl, rfl⟩

/-- C7 (amended): callers receive a well-typed success or taxonomy error
for every response whose status is in one of the classified sets, and for
every 2xx response whose body parses as JSON and yields error codes;
outside these cases (other statuses such as 500, unparseable bodies,
unexpectedly-shaped error payloads) a raw unclassified exception escapes
to the caller. -/
theorem c7_taxonomy_amended (r : HttpResponse) :
    r.status ∈ retry_on_status ∨ r.status ∈ shop_unavailable_status ∨
      (200 ≤ r.status ∧ r.status < 300 ∧
        ∃ data codes, r.body = some data ∧ get_error_codes data = some codes) →
    isTaxonomyOutcome (graphqlStep r) = true := by
  intro h
  rcases h with h | h | ⟨h1, h2, data, codes, hb, hc⟩
  · simp [graphqlStep, h, isTaxonomyOutcome]
  · have hn : r.status ∉ retry_on_status := by
      simp [shop_unavailable_status] at h
      rcases h with h | h <;> simp [retry_on_status, h]
    simp [graphqlStep, hn, h, isTaxonomyOutcome]
  · have hn : r.status ∉ retry_on_status := by
      simp [retry_on_status]; omega
    have hn2 : r.status ∉ shop_unavailable_status := by
      simp [shop_unavailable_status]; omega
    have h3 : ¬ ¬ (200 ≤ r.status ∧ r.status < 300) := by omega
    simp only [graphqlStep, if_neg hn, if_neg hn2, if_neg h3, hb, hc]
    by_cases hce : codes.isEmpty = true
    · simp [hce, isTaxonomyOutcome]
    · simp only [Bool.not_eq_true] at hce
      by_cases hth : codes.any (fun c => Json.beq c (Json.str "THROTTLED")) = true
      · simp [hce, hth, isTaxonomyOutcome]
      · simp only [Bool.not_eq_true] at hth
        simp [hce, hth, isTaxonomyOutcome]

/-- C7 witness: a 429 response yields a taxonomy outcome. -/
theorem c7_taxonomy_amended_witness :
    isTaxonomyOutcome (graphqlStep ⟨429, none⟩) = true :=
  c7_taxonomy_amended ⟨429, none⟩ (Or.inl (by decide))

/-- C8: for every rows list and every configured wrapping key, the
JSON-lines payload uploaded by `run_bulk_operation_mutation` is exactly
the rows each wrapped under the key (unwrapped for `key=None`), and
re-decoding it line by line and unwrapping reproduces exactly the
original rows; a concrete successful run exhibits that payload in its
upload request. -/
theorem c8_jsonl_roundtrip (rows : List Json) (key : Option String) :
    (jsonlinesRoundTrip (wrapRows key rows)).mapM (unwrapRow key) = some rows ∧
    run_bulk_operation_mutation rows key false 200 (fun _ => (200, "")) [c8StageResp, c8RunResp] =
      some (.jobIdResult (.str "gid://shopify/BulkOperation/1"),
        [.stagedUploadsCreate, .fileUpload (.str "https://upload.com") (wrapRows key rows),
         .bulkOperationRunMutation]) := by
  constructor
  · show (wrapRows key rows).mapM (unwrapRow key) = some rows
    cases key with
    | none =>
      induction rows with
      | nil => rfl
      | cons r rs ih =>
        rw [wrapRows] at ih ⊢
        rw [List.mapM_cons, ih]
        simp [unwrapRow]
    | some k =>
      induction rows with
      | nil => rfl
      | cons r rs ih =>
        rw [wrapRows] at ih ⊢
        rw [List.map_cons, List.mapM_cons, ih]
        simp [unwrapRow, pyIndex]
  · rfl

/-- C9: with a last recorded cost at or over the per-second budget and
elapsed time under the 1-second window, the (spec-modelled) cost limiter
returns the positive delay `ONE_SECOND - elapsed`; with elapsed time of at
least one second it returns no delay whatever the recorded cost. -/
theorem c9_cost_limiter (ts cs : List Int) (t c now budget : Int)
    (ht : ts.getLast? = some t) (hc : cs.getLast? = some c) :
    (budget ≤ c → now - t < ONE_SECOND →
      shouldDelay ts cs now budget = ONE_SECOND - (now - t) ∧
      0 < shouldDelay ts cs now budget) ∧
    (ONE_SECOND ≤ now - t → shouldDelay ts cs now budget = 0) := by
  constructor
  · intro hb hel
    have h1 : shouldDelay ts cs now budget = ONE_SECOND - (now - t) := by
      simp only [shouldDelay, ht, hc]
      rw [if_neg (by omega), if_neg (by omega)]
    refine ⟨h1, ?_⟩
    rw [h1]
    simp [ONE_SECOND] at hel ⊢
    omega
  · intro hel
    simp only [shouldDelay, ht, hc]
    by_cases h2 : now - t > ONE_SECOND
    · rw [if_pos h2]
    · rw [if_neg h2]
      have he : now - t = ONE_SECOND := by omega
      by_cases h3 : c < budget
      · rw [if_pos h3]
      · rw [if_neg h3, he]
        omega

/-- C9 witness: at cost 50 (= the default budget) recorded at time 0, a
call at 400 ms delays 600 ms, and a call at 1400 ms is not delayed. -/
theorem c9_cost_limiter_witness :
    (shouldDelay [0] [50] 400 default_graphql_limit = ONE_SECOND - (400 - 0) ∧
      0 < shouldDelay [0] [50] 400 default_graphql_limit) ∧
    shouldDelay [0] [50] 1400 default_graphql_limit = 0 :=
  ⟨(c9_cost_limiter [0] [50] 0 50 400 default_graphql_limit rfl rfl).1
      (by decide) (by decide),
   (c9_cost_limiter [0] [50] 0 50 1400 default_graphql_limit rfl rfl).2 (by decide)⟩

/-- C10: every request issued by a terminating run of
`graphql_call_with_pagination` carries either the caller's variables dict
unchanged or a fresh copy of it extended at the key `"cursor"` with a
non-`None` cursor — the pure embedding of the source's per-round
`{**variables}` copy, into which alone the advancing cursor is written,
leaving the caller's dict untouched. -/
theorem c10_variables_frame (vars : List (String × Json)) (maxLimit : Option Int)
    (env : List Json) (fuel : Nat) (results : List Json)
    (reqs : List (List (String × Json)))
    (h : graphql_call_with_pagination vars maxLimit env fuel = some (results, reqs)) :
    ∀ r ∈ reqs, r = vars ∨ ∃ c, ¬ c = Json.null ∧ r = dictSet vars "cursor" c := by
  intro r hr
  have hm := paginateLoop_requests vars maxLimit fuel env [] .null [] (results, reqs) h r hr
  rcases hm with hm | hm | hm
  · simp at hm
  · exact Or.inl hm
  · exact Or.inr hm

/-- C10 witness: in a terminating one-page run, the single issued request
uses the caller's variables unchanged. -/
theorem c10_variables_frame_witness :
    [("first", Json.num 2)] = [("first", Json.num 2)] ∨
      ∃ c, ¬ c = Json.null ∧
        [("first", Json.num 2)] = dictSet [("first", Json.num 2)] "cursor" c :=
  c10_variables_frame [("first", Json.num 2)] none [Json.obj [("data", Json.obj [])]] 1 []
    [[("first", Json.num 2)]] rfl [("first", Json.num 2)] (by simp)
